import Mathlib

/-!
Verification of the cargo-subunit translation pipeline.

Shallow embedding of the three source files:
- `src/json_parser.rs` — JSON-line to typed-event parsing (`TestEvent`, `parse_event`);
- `src/subunit_writer.rs` — typed-event to subunit-packet encoding (`write_event`);
- `src/main.rs` — the run orchestrator loop, the list mode and the filter-file mode.

External crates (`serde_json`, the `subunit` crate, `chrono`) are not part of this
repository; their interfaces are modelled abstractly: the outcome of the external
JSON decode is an explicit `LineDecode` input, the subunit `Event` struct is embedded
as a record (its byte serialization in the `subunit` crate is a pure function of
that record), and `chrono::Utc::now()` becomes an explicit `now` parameter.
-/

namespace CargoSubunit

/-- Embedding of `TestEvent` from `src/json_parser.rs` (lines 5-31):
the closed set of typed test events. -/
inductive TestEvent : Type where
  | Started (name : String)
  | Passed (name : String) (duration_secs : Option Float)
  | Failed (name : String) (duration_secs : Option Float)
      (stdout : Option String) (stderr : Option String)
  | Ignored (name : String)
  | Timeout (name : String) (duration_secs : Option Float)

/-- The `name` field carried by every `TestEvent` variant. -/
def TestEvent.name : TestEvent → String
  | .Started n => n
  | .Passed n _ => n
  | .Failed n _ _ _ => n
  | .Ignored n => n
  | .Timeout n _ => n

/-- Embedding of the `JsonEvent` raw shape from `src/json_parser.rs` (lines 33-54):
the tagged union a well-formed line deserializes into (`Suite` or `Test`). -/
inductive JsonEvent : Type where
  | Suite (event : String) (test_count : Option Nat)
  | Test (event : String) (name : String) (exec_time : Option Float)
      (stdout : Option String) (stderr : Option String)

/-- Outcome of the external `serde_json::from_str` call on one line (the decode
itself lives in the serde_json crate, outside this repository): either the line
is not a well-formed `JsonEvent` (`malformed`), or it decodes to one. -/
inductive LineDecode : Type where
  | malformed
  | decoded (e : JsonEvent)

/-- The match over `json_event` in the body of `parse_event`
(`src/json_parser.rs` lines 60-96): maps a decoded raw event to an optional
typed event. The Rust `match event.as_str()` over string literals is a
sequential chain of string-equality tests, embedded as such. -/
def parse_decoded (json_event : JsonEvent) : Option TestEvent :=
  match json_event with
  | .Suite _ _ => none
  | .Test event name exec_time stdout stderr =>
    if event = "started" then some (.Started name)
    else if event = "ok" then some (.Passed name exec_time)
    else if event = "failed" then some (.Failed name exec_time stdout stderr)
    else if event = "ignored" then some (.Ignored name)
    else if event = "timeout" then some (.Timeout name exec_time)
    else none

/-- Embedding of `parse_event` from `src/json_parser.rs` (lines 57-97), with the
external JSON decode outcome made explicit: a decode failure becomes the
`Err` produced by the `.context("Failed to parse JSON event")?` line. -/
def parse_event (d : LineDecode) : Except String (Option TestEvent) :=
  match d with
  | .malformed => .error "Failed to parse JSON event"
  | .decoded e => .ok (parse_decoded e)

/-- Embedding of the `subunit::Event` struct written by `SubunitWriter`:
one protocol packet before byte serialization (the serialization in the
external subunit crate is a pure function of this record, so equal records
yield byte-identical packets). The timestamp is the `Nat` clock value passed
for `chrono::Utc::now()`; `file_content` is the attachment's bytes. -/
structure Event : Type where
  status : Option String
  test_id : Option String
  timestamp : Option Nat
  file_name : Option String
  file_content : Option (List UInt8)
  mime_type : Option String
  route_code : Option String
  tags : Option (List String)
deriving DecidableEq, Repr

/-- UTF-8 bytes of a string: Rust `s.as_bytes().to_vec()`. -/
def strBytes (s : String) : List UInt8 := s.toUTF8.toList

/-- Embedding of `SubunitWriter::write_event` from `src/subunit_writer.rs`
(lines 20-131): the single packet built for one `TestEvent`. `now` stands for
the `Utc::now()` wall-clock reading taken at encode time. -/
def write_event (now : Nat) (event : TestEvent) : Event :=
  match event with
  | .Started name =>
    { status := some "inprogress", test_id := some name, timestamp := some now,
      file_name := none, file_content := none, mime_type := none,
      route_code := none, tags := none }
  | .Passed name _ =>
    { status := some "success", test_id := some name, timestamp := some now,
      file_name := none, file_content := none, mime_type := none,
      route_code := none, tags := none }
  | .Failed name _ stdout stderr =>
    let evt : Event :=
      { status := some "fail", test_id := some name, timestamp := some now,
        file_name := none, file_content := none, mime_type := none,
        route_code := none, tags := none }
    let evt : Event :=
      match stdout with
      | some stdout_content =>
        if !stdout_content.isEmpty then
          { evt with file_name := some "stdout",
                     file_content := some (strBytes stdout_content),
                     mime_type := some "text/plain;charset=utf8" }
        else evt
      | none => evt
    let evt : Event :=
      match stderr with
      | some stderr_content =>
        if !stderr_content.isEmpty then
          { evt with file_name := some "stderr",
                     file_content := some (strBytes stderr_content),
                     mime_type := some "text/plain;charset=utf8" }
        else evt
      | none => evt
    evt
  | .Ignored name =>
    { status := some "skip", test_id := some name, timestamp := some now,
      file_name := none, file_content := none, mime_type := none,
      route_code := none, tags := none }
  | .Timeout name _ =>
    { status := some "fail", test_id := some name, timestamp := some now,
      file_name := some "reason",
      file_content := some (strBytes "Test timed out"),
      mime_type := some "text/plain;charset=utf8",
      route_code := none, tags := none }

/-- Whitespace as trimmed by Rust `str::trim` (restricted to the ASCII
whitespace occurring in runner output). -/
def isWhitespaceChar (c : Char) : Bool :=
  c = ' ' || c = '\t' || c = '\n' || c = '\r'

/-- Rust `str::trim`: the string without leading and trailing whitespace. -/
def trimString (s : String) : String :=
  ⟨((s.data.dropWhile isWhitespaceChar).reverse.dropWhile isWhitespaceChar).reverse⟩

/-- Whether `pat` occurs at the beginning of `l`. -/
def listBeginsWith (pat : List Char) : List Char → Bool
  | [] => pat.isEmpty
  | c :: rest =>
    match pat with
    | [] => true
    | p :: ps => p = c && listBeginsWith ps rest

/-- Rust `str::ends_with` for a literal pattern. -/
def endsWithStr (s suf : String) : Bool :=
  listBeginsWith suf.data.reverse s.data.reverse

/-- Rust `str::contains` for a literal pattern: whether `pat` occurs as a
substring of `s`. -/
def containsSubstrAux (pat : List Char) : List Char → Bool
  | [] => listBeginsWith pat []
  | c :: rest => listBeginsWith pat (c :: rest) || containsSubstrAux pat rest

/-- Rust `str::contains` on strings. -/
def containsSubstr (s pat : String) : Bool := containsSubstrAux pat.data s.data

/-- Rust `str::strip_suffix`: the string with `suf` removed if it ends with
`suf`, otherwise the empty result. -/
def strip_suffix (s suf : String) : Option String :=
  if listBeginsWith suf.data.reverse s.data.reverse then
    some ⟨(s.data.reverse.drop suf.data.length).reverse⟩
  else none

/-- One iteration of the run orchestrator's line loop,
`run_tests_with_filters` in `src/main.rs` (lines 150-169): a line that trims
to empty is skipped before the parser is invoked; a parsed event is encoded
into one packet; a non-test event is skipped; a parse error produces the two
`eprintln!` diagnostic lines and processing continues. Returns the packets
written and the diagnostic lines emitted for this line. -/
def process_line (now : Nat) (line : String) (d : LineDecode) :
    List Event × List String :=
  if (trimString line).isEmpty then ([], [])
  else
    match parse_event d with
    | .ok (some event) => ([write_event now event], [])
    | .ok none => ([], [])
    | .error e =>
      ([], ["Warning: Failed to parse JSON line: " ++ e, "Line: " ++ line])

/-- The run orchestrator's whole line loop over the subprocess stdout lines,
each line paired with the outcome of its external JSON decode: concatenates,
in order, the packets and diagnostics of every line — the loop of
`src/main.rs` lines 150-169 never aborts on a line. -/
def run_tests_with_filters (now : Nat) (lines : List (String × LineDecode)) :
    List Event × List String :=
  match lines with
  | [] => ([], [])
  | (s, d) :: rest =>
    let out := process_line now s d
    let outs := run_tests_with_filters now rest
    (out.1 ++ outs.1, out.2 ++ outs.2)

/-- The per-line body of `list_tests` in `src/main.rs` (lines 73-88):
trim the line; skip it if empty, ending in " tests, " or containing
" benchmarks"; otherwise print it with a trailing ": test" or ": bench"
suffix removed, or as-is when neither suffix is present. Returns the line
printed for this input line, if any. -/
def list_tests_line (line : String) : Option String :=
  let line := trimString line
  if line.isEmpty || endsWithStr line " tests, " || containsSubstr line " benchmarks" then
    none
  else
    match strip_suffix line ": test" with
    | some test_name => some test_name
    | none =>
      match strip_suffix line ": bench" with
      | some test_name => some test_name
      | none => some line

/-- Embedding of `list_tests` from `src/main.rs` (lines 56-91), from the point
where the captured runner output has been split into lines: the sequence of
lines printed, in order. -/
def list_tests (stdout_lines : List String) : List String :=
  stdout_lines.filterMap list_tests_line

/-- Embedding of `run_tests_from_file` from `src/main.rs` (lines 94-113), with
the file contents given as its list of lines: trim every line, drop the ones
that are then empty, fail if nothing is left (the `anyhow::bail!` fires before
`run_tests_with_filters`, hence before any subprocess is spawned), otherwise
return the filter list handed to `run_tests_with_filters`. -/
def run_tests_from_file (file_lines : List String) : Except String (List String) :=
  let test_names := (file_lines.map trimString).filter (fun l => !l.isEmpty)
  if test_names.isEmpty then .error "No test names found in file"
  else .ok test_names

/-! Spec-side definitions for the refinement claim about list mode, phrased
from the specification's words, to be compared with `list_tests`. -/

/-- Spec-side: a blank line (discarded by list mode). -/
def isBlankLine (l : String) : Bool := l.isEmpty

/-- Spec-side: the runner's summary line of the terse list output
(characterized by its trailing " tests, " text). -/
def isSummaryLine (l : String) : Bool := endsWithStr l " tests, "

/-- Spec-side: a benchmark-count line of the terse list output
(characterized by containing " benchmarks"). -/
def isBenchCountLine (l : String) : Bool := containsSubstr l " benchmarks"

/-- Spec-side: a line with its trailing ": test" or ": bench" marker
stripped (left unchanged when it carries neither marker). -/
def stripTestMarker (l : String) : String :=
  match strip_suffix l ": test" with
  | some t => t
  | none =>
    match strip_suffix l ": bench" with
    | some t => t
    | none => l

/-- Spec-side description of list mode from the specification's words:
the input lines (trimmed), minus blank lines, minus summary lines, minus
benchmark-count lines, each remaining line with its trailing marker
stripped, in the original order. -/
def listModeSpec (ls : List String) : List String :=
  ((ls.map trimString).filter
    (fun l => !(isBlankLine l || isSummaryLine l || isBenchCountLine l))).map
    stripTestMarker

/-! Theorems. -/

/-- C3: for every Timeout event, regardless of its name or duration, the
encoder emits a packet with status "fail", test_id the event's name, and
exactly one attachment named "reason" whose content is the UTF-8 bytes of
"Test timed out" with plain-text UTF-8 mime type. -/
theorem C3_timeout_fixed_attachment (now : Nat) (name : String) (d : Option Float) :
    write_event now (.Timeout name d) =
      { status := some "fail", test_id := some name, timestamp := some now,
        file_name := some "reason",
        file_content := some (strBytes "Test timed out"),
        mime_type := some "text/plain;charset=utf8",
        route_code := none, tags := none } := rfl

/-- C4: every Started, Passed and Ignored event is encoded as exactly one
packet with status "inprogress", "success" and "skip" respectively, test_id
the event's name, and no attachment (file name, content and mime type all
absent). -/
theorem C4_plain_statuses (now : Nat) (name : String) (d : Option Float) :
    write_event now (.Started name) =
      { status := some "inprogress", test_id := some name, timestamp := some now,
        file_name := none, file_content := none, mime_type := none,
        route_code := none, tags := none } ∧
    write_event now (.Passed name d) =
      { status := some "success", test_id := some name, timestamp := some now,
        file_name := none, file_content := none, mime_type := none,
        route_code := none, tags := none } ∧
    write_event now (.Ignored name) =
      { status := some "skip", test_id := some name, timestamp := some now,
        file_name := none, file_content := none, mime_type := none,
        route_code := none, tags := none } := ⟨rfl, rfl, rfl⟩

/-- C6: two Passed, Failed or Timeout events that differ only in their
duration field, encoded at the same wall-clock instant, yield exactly the
same packet (hence byte-identical serializations, the wire form being a
function of the packet record): the parsed duration never influences any
emitted field. -/
theorem C6_duration_never_surfaced (now : Nat) (name : String)
    (d1 d2 : Option Float) (stdout stderr : Option String) :
    write_event now (.Passed name d1) = write_event now (.Passed name d2) ∧
    write_event now (.Failed name d1 stdout stderr) =
      write_event now (.Failed name d2 stdout stderr) ∧
    write_event now (.Timeout name d1) = write_event now (.Timeout name d2) :=
  ⟨rfl, rfl, rfl⟩

/-- C1: a Failed event is encoded with status "fail" and test_id the event's
name; the packet's single attachment is stderr whenever stderr is present and
non-empty (regardless of stdout), else stdout whenever stdout is present and
non-empty, and there is no attachment when both are absent or empty. -/
theorem C1_failed_attachment_priority (now : Nat) (name : String)
    (d : Option Float) (stdout stderr : Option String) :
    (write_event now (.Failed name d stdout stderr)).status = some "fail" ∧
    (write_event now (.Failed name d stdout stderr)).test_id = some name ∧
    (∀ e, stderr = some e → e.isEmpty = false →
      (write_event now (.Failed name d stdout stderr)).file_name = some "stderr" ∧
      (write_event now (.Failed name d stdout stderr)).file_content = some (strBytes e) ∧
      (write_event now (.Failed name d stdout stderr)).mime_type =
        some "text/plain;charset=utf8") ∧
    (∀ o, stdout = some o → o.isEmpty = false →
      (∀ e, stderr = some e → e.isEmpty = true) →
      (write_event now (.Failed name d stdout stderr)).file_name = some "stdout" ∧
      (write_event now (.Failed name d stdout stderr)).file_content = some (strBytes o) ∧
      (write_event now (.Failed name d stdout stderr)).mime_type =
        some "text/plain;charset=utf8") ∧
    ((∀ o, stdout = some o → o.isEmpty = true) →
      (∀ e, stderr = some e → e.isEmpty = true) →
      (write_event now (.Failed name d stdout stderr)).file_name = none ∧
      (write_event now (.Failed name d stdout stderr)).file_content = none ∧
      (write_event now (.Failed name d stdout stderr)).mime_type = none) := by
  rcases stdout with _ | o <;> rcases stderr with _ | e <;>
    simp only [write_event] <;> (try split_ifs) <;> simp_all

/-- Witness for C1 at Failed with stdout "o" and stderr "e": the attachment
is stderr's. -/
theorem C1_failed_attachment_priority_witness :
    (write_event 0 (.Failed "t" none (some "o") (some "e"))).file_name = some "stderr" ∧
    (write_event 0 (.Failed "t" none (some "o") (some "e"))).file_content =
      some (strBytes "e") ∧
    (write_event 0 (.Failed "t" none (some "o") (some "e"))).mime_type =
      some "text/plain;charset=utf8" :=
  (C1_failed_attachment_priority 0 "t" none (some "o") (some "e")).2.2.1 "e" rfl
    (by decide)

/-- C2: on every well-formed raw event, parse maps a Suite shape to the empty
result; a Test shape to the variant selected by its kind string ("started",
"ok", "failed", "ignored", "timeout"), preserving name and all provided
optional fields verbatim; and a Test shape with any other kind string to the
empty result, never an error. -/
theorem C2_parse_kind_mapping :
    (∀ e tc, parse_event (.decoded (.Suite e tc)) = .ok none) ∧
    (∀ nm et so se, parse_event (.decoded (.Test "started" nm et so se)) =
      .ok (some (.Started nm))) ∧
    (∀ nm et so se, parse_event (.decoded (.Test "ok" nm et so se)) =
      .ok (some (.Passed nm et))) ∧
    (∀ nm et so se, parse_event (.decoded (.Test "failed" nm et so se)) =
      .ok (some (.Failed nm et so se))) ∧
    (∀ nm et so se, parse_event (.decoded (.Test "ignored" nm et so se)) =
      .ok (some (.Ignored nm))) ∧
    (∀ nm et so se, parse_event (.decoded (.Test "timeout" nm et so se)) =
      .ok (some (.Timeout nm et))) ∧
    (∀ k nm et so se, k ≠ "started" → k ≠ "ok" → k ≠ "failed" →
      k ≠ "ignored" → k ≠ "timeout" →
      parse_event (.decoded (.Test k nm et so se)) = .ok none) := by
  refine ⟨fun _ _ => rfl, fun _ _ _ _ => rfl, fun _ _ _ _ => rfl,
    fun _ _ _ _ => rfl, fun _ _ _ _ => rfl, fun _ _ _ _ => rfl, ?_⟩
  intro k nm et so se h1 h2 h3 h4 h5
  simp [parse_event, parse_decoded, h1, h2, h3, h4, h5]

/-- Witness for C2 at the unknown kind "finished": no event and no error. -/
theorem C2_parse_kind_mapping_witness :
    parse_event (.decoded (.Test "finished" "t" none none none)) = .ok none :=
  C2_parse_kind_mapping.2.2.2.2.2.2 "finished" "t" none none none
    (by decide) (by decide) (by decide) (by decide) (by decide)

/-- Counterexample to C7 as stated: the line
`\x7b"type":"test","event":"started","name":""\x7d` is well-formed JSON, its
decode is the raw Test record with empty name, and parse turns it into a
Started event whose name is the empty string — so parse can produce a
TestEvent whose name is empty. -/
theorem C7_empty_name_counterexample :
    parse_event (.decoded (.Test "started" "" none none none)) =
      .ok (some (.Started "")) ∧
    (TestEvent.name (.Started "")).isEmpty = true := ⟨rfl, rfl⟩

/-- C7 amended: parse performs no non-emptiness check; instead, every
TestEvent it produces carries the raw Test record's name verbatim, so its
name is non-empty exactly when the input record's name is. -/
theorem C7_name_preserved (ev nm : String) (et : Option Float)
    (so se : Option String) (te : TestEvent)
    (h : parse_decoded (.Test ev nm et so se) = some te) :
    te.name = nm ∧ (nm.isEmpty = false → te.name.isEmpty = false) := by
  have hname : te.name = nm := by
    simp only [parse_decoded] at h
    split_ifs at h <;> cases h <;> rfl
  exact ⟨hname, fun hnm => hname ▸ hnm⟩

/-- Witness for the amended C7 at kind "ok" and name "t". -/
theorem C7_name_preserved_witness :
    (TestEvent.name (.Passed "t" none)) = "t" ∧
    ("t".isEmpty = false → (TestEvent.name (.Passed "t" none)).isEmpty = false) :=
  C7_name_preserved "ok" "t" none none none (.Passed "t" none) rfl

/-- C5: on a line whose external JSON decode fails, parse returns an error
value, never the empty result; and the orchestrator loop, on a non-blank
malformed line, writes no packet, emits the two diagnostic lines (the warning
and the offending line) and continues with the remaining lines unchanged. -/
theorem C5_parse_error_logged (now : Nat) (line : String)
    (rest : List (String × LineDecode)) (h : (trimString line).isEmpty = false) :
    (∀ r, parse_event .malformed ≠ .ok r) ∧
    run_tests_with_filters now ((line, .malformed) :: rest) =
      ((run_tests_with_filters now rest).1,
        "Warning: Failed to parse JSON line: Failed to parse JSON event" ::
          ("Line: " ++ line) :: (run_tests_with_filters now rest).2) := by
  constructor
  · intro r hc
    simp [parse_event] at hc
  · simp [run_tests_with_filters, process_line, parse_event, h]

/-- Witness for C5 at the non-blank malformed line "bad". -/
theorem C5_parse_error_logged_witness :
    (∀ r, parse_event .malformed ≠ .ok r) ∧
    run_tests_with_filters 0 [("bad", .malformed)] =
      ((run_tests_with_filters 0 []).1,
        "Warning: Failed to parse JSON line: Failed to parse JSON event" ::
          ("Line: " ++ "bad") :: (run_tests_with_filters 0 []).2) :=
  C5_parse_error_logged 0 "bad" [] (by decide)

/-- C10: a subprocess stdout line that is empty or whitespace-only
contributes no packet and no diagnostic, whatever its decode outcome would
have been: the loop drops it before the parser is invoked. -/
theorem C10_blank_line_dropped (now : Nat) (line : String) (d : LineDecode)
    (rest : List (String × LineDecode)) (h : (trimString line).isEmpty = true) :
    run_tests_with_filters now ((line, d) :: rest) =
      run_tests_with_filters now rest := by
  simp [run_tests_with_filters, process_line, h]

/-- Witness for C10 at a whitespace-only line paired with a failing decode:
it is dropped with no diagnostic. -/
theorem C10_blank_line_dropped_witness :
    run_tests_with_filters 0 [("  ", .malformed)] = run_tests_with_filters 0 [] :=
  C10_blank_line_dropped 0 "  " .malformed [] (by decide)

/-- Helper: the per-line body of list mode agrees with the spec-side per-line
description (keep the trimmed line unless blank, summary or benchmark-count,
stripping its trailing marker). -/
theorem list_tests_line_eq (l : String) :
    list_tests_line l =
      if isBlankLine (trimString l) || isSummaryLine (trimString l) ||
          isBenchCountLine (trimString l) then none
      else some (stripTestMarker (trimString l)) := by
  simp only [list_tests_line, isBlankLine, isSummaryLine, isBenchCountLine,
    stripTestMarker]
  split
  · rfl
  · cases strip_suffix (trimString l) ": test" <;>
      cases strip_suffix (trimString l) ": bench" <;> rfl

/-- C8: list mode prints exactly the captured lines minus blank lines, the
summary line and benchmark-count lines, each remaining line (trimmed) with
its trailing ": test" or ": bench" marker stripped, one identifier per line,
in the original order; on the spec's fixture of tests a, b, c it prints
exactly a, b, c with no summary line. -/
theorem C8_list_mode (ls : List String) :
    list_tests ls = listModeSpec ls ∧
    list_tests ["a: test", "b: test", "c: test", "3 tests, 0 benchmarks"] =
      ["a", "b", "c"] := by
  constructor
  · induction ls with
    | nil => rfl
    | cons l ls ih =>
      simp only [list_tests, List.filterMap_cons, listModeSpec, List.map_cons,
        List.filter_cons] at ih ⊢
      rw [list_tests_line_eq]
      by_cases hc : (isBlankLine (trimString l) || isSummaryLine (trimString l) ||
          isBenchCountLine (trimString l)) = true
      · simp [hc, ih]
      · simp [hc, ih]
  · rfl

/-- C9: the filter-file mode trims every line of the file and drops the ones
that are then blank; it fails — before any subprocess is spawned, the
embedding returning the error instead of a filter list — exactly when nothing
remains, and otherwise the filters passed to the run are exactly the
remaining trimmed lines, in order. -/
theorem C9_filter_file (file_lines : List String) :
    (∀ fs, run_tests_from_file file_lines = .ok fs →
      fs = (file_lines.map trimString).filter (fun l => !l.isEmpty) ∧ fs ≠ []) ∧
    ((∃ msg, run_tests_from_file file_lines = .error msg) ↔
      ∀ l ∈ file_lines, (trimString l).isEmpty = true) := by
  have hiff : ((file_lines.map trimString).filter (fun l => !l.isEmpty)).isEmpty =
      true ↔ ∀ l ∈ file_lines, (trimString l).isEmpty = true := by
    simp [List.isEmpty_iff, List.filter_eq_nil_iff]
  constructor
  · intro fs hfs
    simp only [run_tests_from_file] at hfs
    split_ifs at hfs with hempty
    cases hfs
    refine ⟨rfl, ?_⟩
    simpa [List.isEmpty_iff] using hempty
  · constructor
    · rintro ⟨msg, hmsg⟩
      simp only [run_tests_from_file] at hmsg
      split_ifs at hmsg with hempty
      exact hiff.mp hempty
    · intro hall
      refine ⟨"No test names found in file", ?_⟩
      simp only [run_tests_from_file]
      rw [if_pos (hiff.mpr hall)]

/-- Witness for C9 at the spec's fixture file (one blank line, then
"mod::case"): exactly the single filter "mod::case" is passed. -/
theorem C9_filter_file_witness :
    ["mod::case"] =
      ((["", "mod::case"].map trimString).filter (fun l => !l.isEmpty)) ∧
    ["mod::case"] ≠ ([] : List String) :=
  (C9_filter_file ["", "mod::case"]).1 ["mod::case"] rfl

end CargoSubunit
